import Mathlib

/-!
Shallow embedding of the Patroni control-loop core (src/patroni/__init__.py)
with proofs about its tag derivation, scheduling, dynamic-configuration
bootstrap, reload error handling and shutdown sequencing.

Modelling conventions: time values (time.time(), loop_wait, nap_time) are
exact rationals; Python dicts are association lists with unique keys; a
Python exception is an `Except.error`; collaborator calls whose bodies live
in other modules are represented by their observable effects (parameters for
their return values, effect lists for their calls).
-/

namespace Patroni

/-- Python values as they may appear as tag values, with Python truthiness. -/
inductive PyVal where
  | none
  | bool (b : Bool)
  | int (n : Int)
  | str (s : String)
  deriving Repr, DecidableEq

/-- Python truthiness of a tag value. -/
def PyVal.truthy : PyVal → Bool
  | PyVal.none => false
  | PyVal.bool b => b
  | PyVal.int n => n != 0
  | PyVal.str s => !s.isEmpty

/-- A tags mapping: an association list standing for a Python dict (unique keys). -/
abbrev Tags := List (String × PyVal)

/-- The reserved tag names of Patroni.get_tags. -/
def reserved_tags : List String := ["clonefrom", "nofailover", "noloadbalance"]

/-- Embedding of Patroni.get_tags: the dict comprehension keeps an entry when
its name is not reserved or its value is truthy. -/
def get_tags (raw : Tags) : Tags :=
  raw.filter (fun tv => !(reserved_tags.contains tv.1) || tv.2.truthy)

/-- Embedding of dict.get on the tags mapping: the value of the first entry
with the given key, if any. -/
def tags_get (tags : Tags) (k : String) : Option PyVal :=
  (tags.find? (fun tv => tv.1 == k)).map Prod.snd

/-- Embedding of the Patroni.nofailover property:
bool(self.tags.get('nofailover', False)). -/
def nofailover (tags : Tags) : Bool :=
  ((tags_get tags "nofailover").getD (PyVal.bool false)).truthy

/-- Embedding of the Patroni.noloadbalance property:
bool(self.tags.get('noloadbalance', False)). -/
def noloadbalance (tags : Tags) : Bool :=
  ((tags_get tags "noloadbalance").getD (PyVal.bool false)).truthy

/-- Embedding of the Patroni.replicatefrom property: self.tags.get('replicatefrom'). -/
def replicatefrom (tags : Tags) : Option PyVal := tags_get tags "replicatefrom"

/-- Observable outcome of one call to Patroni.schedule_next_run: the new value
of self.next_run, the number of overrun warnings logged, and whether the
0.001-second sleep ran. -/
structure SchedResult where
  next_run : ℚ
  warnings : Nat
  slept : Bool
  deriving Repr, DecidableEq

/-- Embedding of Patroni.schedule_next_run.  `next_run` is self.next_run on
entry, `loop_wait` is self.dcs.loop_wait, `current_time` is what time.time()
returns after the increment, `watch_changed` is what self.dcs.watch(nap_time)
returns when it is reached, and `wake_time` is what the second time.time()
call returns after the watch wakes (so `wake_time` is the current time at the
moment of the wake). -/
def schedule_next_run (next_run loop_wait current_time : ℚ)
    (watch_changed : Bool) (wake_time : ℚ) : SchedResult :=
  let nr := next_run + loop_wait
  let nap_time := nr - current_time
  if nap_time ≤ 0 then
    { next_run := current_time, warnings := 1, slept := true }
  else if watch_changed then
    { next_run := wake_time, warnings := 0, slept := false }
  else
    { next_run := nr, warnings := 0, slept := false }

/-- A dynamic-configuration payload, as a small key-value mapping. -/
abbrev DynCfg := List (String × Int)

/-- The cluster snapshot returned by the coordination store: opaque except for
its config field (None when the record carries no dynamic configuration). -/
structure Cluster where
  config : Option DynCfg
  deriving Repr, DecidableEq

/-- The bootstrap section of the local configuration, of which only the 'dcs'
subsection is read by this core. -/
structure BootstrapSection where
  dcs : DynCfg
  deriving Repr, DecidableEq

/-- The slice of the Config collaborator state this core reads and writes:
the cached dynamic configuration (Option.none models an empty/absent cache,
which is falsy in Python) and the optional local bootstrap section. -/
structure Config where
  dynamic_configuration : Option DynCfg
  bootstrap : Option BootstrapSection
  deriving Repr, DecidableEq

/-- Modelled from the spec: Config.set_dynamic_configuration is not under
src/; per the configuration-collaborator contract, applyDynamicConfig(cfg)
stores the payload and returns whether the effective configuration changed. -/
def set_dynamic_configuration (cfg : Config) (d : DynCfg) : Config × Bool :=
  (⟨some d, cfg.bootstrap⟩, decide (cfg.dynamic_configuration ≠ some d))

/-- Modelled from the spec: dcs.reload_config is not under src/; per the
spec, propagating a changed configuration to the coordination-store
collaborator pushes the current dynamic configuration to the store.  The
effect records the configuration pushed. -/
inductive DcsEffect where
  | reload_config (pushed : Option DynCfg)
  deriving Repr, DecidableEq

/-- Outcome of the body of one bootstrap iteration once a fetch succeeded:
the updated configuration and the coordination-store pushes performed. -/
structure BootResult where
  config : Config
  pushes : List DcsEffect
  deriving Repr, DecidableEq

/-- Embedding of the elif-branch of Patroni.load_dynamic_configuration:
when the local dynamic configuration is empty and a bootstrap section
exists, apply its dcs subsection and, if that changed the configuration,
push the result to the coordination store. -/
def bootstrap_branch (cfg : Config) : BootResult :=
  match cfg.dynamic_configuration, cfg.bootstrap with
  | Option.none, some bs =>
    let p := set_dynamic_configuration cfg bs.dcs
    if p.2 then
      { config := p.1, pushes := [DcsEffect.reload_config p.1.dynamic_configuration] }
    else
      { config := p.1, pushes := [] }
  | _, _ => { config := cfg, pushes := [] }

/-- Embedding of the body of a successful bootstrap iteration of
Patroni.load_dynamic_configuration: `cluster` is what dcs.get_cluster()
returned (Option.none models a falsy cluster). -/
def process_cluster (cfg : Config) (cluster : Option Cluster) : BootResult :=
  match cluster with
  | some cl =>
    match cl.config with
    | some dyn =>
      let p := set_dynamic_configuration cfg dyn
      if p.2 then
        { config := p.1, pushes := [DcsEffect.reload_config p.1.dynamic_configuration] }
      else
        { config := p.1, pushes := [] }
    | Option.none => bootstrap_branch cfg
  | Option.none => bootstrap_branch cfg

/-- Outcome of one dcs.get_cluster() call during bootstrap: a snapshot, or a
DCSError (the StoreUnavailable failure the except-clause catches). -/
inductive FetchResult where
  | ok (cluster : Option Cluster)
  | store_unavailable
  deriving Repr, DecidableEq

/-- Embedding of the while-True loop of Patroni.load_dynamic_configuration
over a trace of fetch outcomes.  Each store_unavailable outcome logs one
warning and retries at once (the loop body has no sleep and no retry bound);
the first ok outcome runs the body and breaks.  The result is Option.none
with the trace exhausted only when every outcome was a failure, together
with the number of warnings logged. -/
def load_dynamic_configuration (cfg : Config) :
    List FetchResult → Option BootResult × Nat
  | [] => (Option.none, 0)
  | FetchResult.store_unavailable :: rest =>
    let r := load_dynamic_configuration cfg rest
    (r.1, r.2 + 1)
  | FetchResult.ok c :: _ => (some (process_cluster cfg c), 0)

/-- Which of the three collaborator calls inside Patroni.reload_config raise
on this occasion (dcs.reload_config, api.reload_config,
postgresql.reload_config, in source order). -/
structure ReloadFailures where
  dcs_fail : Bool
  api_fail : Bool
  pg_fail : Bool
  deriving Repr, DecidableEq

/-- True when at least one collaborator call raises. -/
def ReloadFailures.any (f : ReloadFailures) : Bool :=
  f.dcs_fail || f.api_fail || f.pg_fail

/-- Embedding of the try-block body of Patroni.reload_config: tags are
re-derived (pure), then the three collaborator reloads run in order; the
first raising call aborts the rest, as a Python exception would. -/
def reload_body (f : ReloadFailures) : Except String Unit :=
  if f.dcs_fail then Except.error "dcs.reload_config"
  else if f.api_fail then Except.error "api.reload_config"
  else if f.pg_fail then Except.error "postgresql.reload_config"
  else Except.ok ()

/-- Observable outcome of Patroni.reload_config: whether logger.exception ran. -/
structure ReloadResult where
  logged_exception : Bool
  deriving Repr, DecidableEq

/-- Embedding of Patroni.reload_config: the body runs under try, and any
exception it raises is caught by the bare except-clause and logged, so the
call itself always returns normally. -/
def reload_config (f : ReloadFailures) : ReloadResult :=
  match reload_body f with
  | Except.ok _ => { logged_exception := false }
  | Except.error _ => { logged_exception := true }

/-- Modelled from the spec: Config.save_cache (persistCache) is not under
src/; per the spec, cache-persistence failures are caught internally,
logged and non-fatal.  Returns whether a persistence failure was logged;
the call never raises. -/
def save_cache (fails : Bool) : Bool := fails

/-- The collaborator return values and failure injections consumed by one
iteration of the while-loop of Patroni.run. -/
structure TickInputs where
  received_sighup : Bool
  local_cfg_changed : Bool
  sighup_reload_failures : ReloadFailures
  ha_status : String
  cluster : Option Cluster
  cluster_reload_failures : ReloadFailures
  data_directory_empty : Bool
  save_cache_fails : Bool
  next_run : ℚ
  loop_wait : ℚ
  current_time : ℚ
  watch_changed : Bool
  wake_time : ℚ
  deriving Repr, DecidableEq

/-- Observable outcome of one iteration of the while-loop of Patroni.run. -/
structure TickResult where
  config : Config
  received_sighup : Bool
  ha_status_logged : String
  reload1 : Option ReloadResult
  reload2 : Option ReloadResult
  cache_failure_logged : Bool
  sched : SchedResult
  deriving Repr, DecidableEq

/-- Embedding of one iteration of the while-loop of Patroni.run: the sighup
check (flag cleared, reload on local change), logger.info(ha.run_cycle())
(the HA collaborator absorbs its own errors and returns a status string),
the cached-cluster configuration check with its reload, the opportunistic
save_cache when the data directory is non-empty, reap_children, and
schedule_next_run.  Except models a Python exception escaping the iteration;
the loop body itself has no try-clause, only reload_config and save_cache
catch internally. -/
def run_tick (cfg : Config) (inp : TickInputs) : Except String TickResult :=
  let reload1 : Option ReloadResult :=
    if inp.received_sighup && inp.local_cfg_changed then
      some (reload_config inp.sighup_reload_failures)
    else
      Option.none
  let step3 : Config × Option ReloadResult :=
    match inp.cluster with
    | some cl =>
      match cl.config with
      | some dyn =>
        let p := set_dynamic_configuration cfg dyn
        if p.2 then (p.1, some (reload_config inp.cluster_reload_failures))
        else (p.1, Option.none)
      | Option.none => (cfg, Option.none)
    | Option.none => (cfg, Option.none)
  let cacheLog : Bool :=
    if inp.data_directory_empty then false else save_cache inp.save_cache_fails
  Except.ok
    ⟨step3.1, false, inp.ha_status, reload1, step3.2, cacheLog,
      schedule_next_run inp.next_run inp.loop_wait inp.current_time
        inp.watch_changed inp.wake_time⟩

/-- Calls made by the finally-block of main, in order. -/
inductive ShutdownEffect where
  | api_shutdown
  | log_info_paused
  | pg_stop (checkpoint : Bool)
  | delete_leader
  deriving Repr, DecidableEq

/-- Embedding of the finally-block of main: api.shutdown() always runs
first; then, if ha.is_paused() is true, only an informational message is
logged, otherwise postgresql.stop(checkpoint=False) and dcs.delete_leader()
run. -/
def shutdown_sequence (paused : Bool) : List ShutdownEffect :=
  ShutdownEffect.api_shutdown ::
    (if paused then [ShutdownEffect.log_info_paused]
     else [ShutdownEffect.pg_stop false, ShutdownEffect.delete_leader])

/-- C1: in the shutdown sequencer, a paused HA collaborator means no
postgresql.stop call (with either checkpoint flag) and no delete_leader
call; a not-paused one means exactly one stop with checkpoint=false, no
stop with checkpoint=true, and exactly one delete_leader. -/
theorem shutdown_pause_aware :
    ((shutdown_sequence true).count (ShutdownEffect.pg_stop false) = 0 ∧
     (shutdown_sequence true).count (ShutdownEffect.pg_stop true) = 0 ∧
     (shutdown_sequence true).count ShutdownEffect.delete_leader = 0) ∧
    ((shutdown_sequence false).count (ShutdownEffect.pg_stop false) = 1 ∧
     (shutdown_sequence false).count (ShutdownEffect.pg_stop true) = 0 ∧
     (shutdown_sequence false).count ShutdownEffect.delete_leader = 1) := by
  decide

/-- C2: when the tick duration current_time - next_run is strictly below
loop_wait and the watch reports no change, schedule_next_run advances
next_run by exactly loop_wait and logs no overrun warning. -/
theorem schedule_on_time_no_drift (next_run loop_wait current_time wake_time : ℚ)
    (hd : current_time - next_run < loop_wait) :
    (schedule_next_run next_run loop_wait current_time false wake_time).next_run
        = next_run + loop_wait ∧
    (schedule_next_run next_run loop_wait current_time false wake_time).warnings = 0 := by
  have h : ¬ (next_run + loop_wait - current_time ≤ 0) := by linarith
  simp [schedule_next_run, h]

/-- C2 witness: a concrete on-time tick (anchor 100, interval 10, now 105). -/
theorem schedule_on_time_no_drift_witness :
    (schedule_next_run 100 10 105 false 0).next_run = 100 + 10 ∧
    (schedule_next_run 100 10 105 false 0).warnings = 0 :=
  schedule_on_time_no_drift 100 10 105 0 (by norm_num)

/-- C3: when the current time is at or past next_run + loop_wait,
schedule_next_run resets next_run to the current time (in particular never
below it), runs the brief sleep, and logs exactly one overrun warning,
whatever the watch would have reported. -/
theorem schedule_overrun_resets_to_now (next_run loop_wait current_time wake_time : ℚ)
    (watch_changed : Bool)
    (hd : next_run + loop_wait ≤ current_time) :
    (schedule_next_run next_run loop_wait current_time watch_changed wake_time).next_run
        = current_time ∧
    current_time ≤
      (schedule_next_run next_run loop_wait current_time watch_changed wake_time).next_run ∧
    (schedule_next_run next_run loop_wait current_time watch_changed wake_time).warnings = 1 ∧
    (schedule_next_run next_run loop_wait current_time watch_changed wake_time).slept = true := by
  have h : next_run + loop_wait - current_time ≤ 0 := by linarith
  simp [schedule_next_run, h]

/-- C3 witness: a concrete overrun (anchor 0, interval 10, now 12). -/
theorem schedule_overrun_resets_to_now_witness :
    (schedule_next_run 0 10 12 false 0).next_run = 12 ∧
    (12 : ℚ) ≤ (schedule_next_run 0 10 12 false 0).next_run ∧
    (schedule_next_run 0 10 12 false 0).warnings = 1 ∧
    (schedule_next_run 0 10 12 false 0).slept = true :=
  schedule_overrun_resets_to_now 0 10 12 0 false (by norm_num)

/-- C4: when the tick is on budget and the watch wakes early reporting a
change, schedule_next_run resets next_run to wake_time, the current time at
the moment of the wake, and logs no overrun warning. -/
theorem schedule_early_wake_resets (next_run loop_wait current_time wake_time : ℚ)
    (hd : current_time - next_run < loop_wait) :
    (schedule_next_run next_run loop_wait current_time true wake_time).next_run
        = wake_time ∧
    (schedule_next_run next_run loop_wait current_time true wake_time).warnings = 0 := by
  have h : ¬ (next_run + loop_wait - current_time ≤ 0) := by linarith
  simp [schedule_next_run, h]

/-- C4 witness: a concrete early wake (anchor 0, interval 10, now 3, wake 4). -/
theorem schedule_early_wake_resets_witness :
    (schedule_next_run 0 10 3 true 4).next_run = 4 ∧
    (schedule_next_run 0 10 3 true 4).warnings = 0 :=
  schedule_early_wake_resets 0 10 3 4 (by norm_num)

/-- C5: the bootstrap loop exits only on a successful fetch — over any trace
it is still looping (result Option.none) exactly when every outcome was a
store failure — and when the trace is k failures followed by a success it
returns the processed result after logging exactly k warnings, one per
failure, with no other effect between retries. -/
theorem load_dynamic_configuration_unbounded_retry (cfg : Config) :
    (∀ fs : List FetchResult,
      ((load_dynamic_configuration cfg fs).1 = Option.none ↔
        ∀ f ∈ fs, f = FetchResult.store_unavailable)) ∧
    (∀ (k : Nat) (c : Option Cluster) (rest : List FetchResult),
      load_dynamic_configuration cfg
          (List.replicate k FetchResult.store_unavailable ++ FetchResult.ok c :: rest)
        = (some (process_cluster cfg c), k)) := by
  constructor
  · intro fs
    induction fs with
    | nil => simp [load_dynamic_configuration]
    | cons f rest ih =>
      cases f with
      | ok c => simp [load_dynamic_configuration]
      | store_unavailable => simp [load_dynamic_configuration, ih]
  · intro k c rest
    induction k with
    | zero => simp [load_dynamic_configuration]
    | succ n ih => simp [List.replicate_succ, load_dynamic_configuration, ih]

/-- C6: every iteration of the run loop returns normally whatever reload
failures are injected, and a reload action logs an exception exactly when
one of its collaborator calls raised — the raise never propagates. -/
theorem reload_failures_nonfatal (cfg : Config) (inp : TickInputs) :
    (∃ r, run_tick cfg inp = Except.ok r) ∧
    (∀ f : ReloadFailures,
      (reload_config f).logged_exception = ReloadFailures.any f) := by
  refine ⟨⟨_, rfl⟩, ?_⟩
  intro f
  rcases f with ⟨d, a, p⟩
  cases d <;> cases a <;> cases p <;> rfl

/-- C7: when the fetched snapshot carries no dynamic configuration (or the
fetch returned a falsy cluster), no dynamic configuration is cached locally
and a bootstrap section exists, the bootstrap body pushes the bootstrap
section's dcs content to the coordination store and caches it. -/
theorem bootstrap_seeds_from_local_section (cfg : Config) (bs : BootstrapSection)
    (cluster : Option Cluster)
    (h1 : cfg.dynamic_configuration = Option.none)
    (h2 : cfg.bootstrap = some bs)
    (h3 : cluster.bind Cluster.config = Option.none) :
    (process_cluster cfg cluster).pushes
        = [DcsEffect.reload_config (some bs.dcs)] ∧
    (process_cluster cfg cluster).config.dynamic_configuration = some bs.dcs := by
  obtain ⟨dc, b⟩ := cfg
  cases h1
  cases h2
  cases cluster with
  | none =>
    simp [process_cluster, bootstrap_branch, set_dynamic_configuration]
  | some cl =>
    have hc : cl.config = Option.none := by simpa using h3
    simp [process_cluster, hc, bootstrap_branch, set_dynamic_configuration]

/-- C7 witness: the spec scenario — no cluster record, empty local cache,
bootstrap section with dcs content ttl 30. -/
theorem bootstrap_seeds_from_local_section_witness :
    (process_cluster ⟨Option.none, some ⟨[("ttl", 30)]⟩⟩ Option.none).pushes
        = [DcsEffect.reload_config (some [("ttl", 30)])] ∧
    (process_cluster ⟨Option.none, some ⟨[("ttl", 30)]⟩⟩
        Option.none).config.dynamic_configuration = some [("ttl", 30)] :=
  bootstrap_seeds_from_local_section ⟨Option.none, some ⟨[("ttl", 30)]⟩⟩
    ⟨[("ttl", 30)]⟩ Option.none rfl rfl rfl

/-- C8: on a tick whose data directory is non-empty, the iteration returns
normally for either behaviour of the cache persistence, and a persistence
failure is exactly what gets logged. -/
theorem save_cache_failure_nonfatal (cfg : Config) (inp : TickInputs)
    (hinit : inp.data_directory_empty = false) :
    ∃ r, run_tick cfg inp = Except.ok r ∧
      r.cache_failure_logged = inp.save_cache_fails := by
  refine ⟨_, rfl, ?_⟩
  simp [run_tick, hinit, save_cache]

/-- C8 witness: a concrete tick with a non-empty data directory and a
failing cache persistence. -/
theorem save_cache_failure_nonfatal_witness :
    ∃ r, run_tick ⟨Option.none, Option.none⟩
        ⟨false, false, ⟨false, false, false⟩, "running", Option.none,
          ⟨false, false, false⟩, false, true, 0, 10, 3, false, 0⟩ = Except.ok r ∧
      r.cache_failure_logged = true :=
  save_cache_failure_nonfatal ⟨Option.none, Option.none⟩
    ⟨false, false, ⟨false, false, false⟩, "running", Option.none,
      ⟨false, false, false⟩, false, true, 0, 10, 3, false, 0⟩ rfl

/-- C9: an entry is in the derived tags exactly when it is in the raw
mapping and is not a falsy-valued entry with a reserved name; the kept
entries appear unchanged and in order (the result is a sublist). -/
theorem get_tags_drops_only_falsy_reserved (raw : Tags) (t : String) (v : PyVal) :
    ((t, v) ∈ get_tags raw ↔
      ((t, v) ∈ raw ∧ (reserved_tags.contains t = false ∨ v.truthy = true))) ∧
    (get_tags raw).Sublist raw := by
  constructor
  · simp [get_tags, List.mem_filter]
  · exact List.filter_sublist raw

theorem get_tags_cons (p : String × PyVal) (rest : Tags) :
    get_tags (p :: rest)
      = if (!(reserved_tags.contains p.1) || p.2.truthy) = true
        then p :: get_tags rest else get_tags rest := by
  simp [get_tags, List.filter_cons]

theorem tags_get_cons (p : String × PyVal) (rest : Tags) (k : String) :
    tags_get (p :: rest) k
      = if (p.1 == k) = true then some p.2 else tags_get rest k := by
  by_cases hb : (p.1 == k) = true
  · simp [tags_get, List.find?, hb]
  · have hb2 : (p.1 == k) = false := by simpa using hb
    simp [tags_get, List.find?, hb2]

theorem tags_get_eq_none_of_not_mem (l : Tags) (k : String)
    (h : k ∉ l.map Prod.fst) : tags_get l k = Option.none := by
  induction l with
  | nil => rfl
  | cons p rest ih =>
    simp only [List.map_cons, List.mem_cons, not_or] at h
    have hb : (p.1 == k) = false := by
      simp only [beq_eq_false_iff_ne]
      exact fun he => h.1 he.symm
    rw [tags_get_cons]
    simp only [hb]
    simpa using ih h.2

theorem filtered_reserved_get_truthy (raw : Tags) (k : String)
    (hk : reserved_tags.contains k = true)
    (hnd : (raw.map Prod.fst).Nodup) :
    ((tags_get (get_tags raw) k).getD (PyVal.bool false)).truthy
      = ((tags_get raw k).getD (PyVal.bool false)).truthy := by
  induction raw with
  | nil => rfl
  | cons p rest ih =>
    rw [List.map_cons, List.nodup_cons] at hnd
    obtain ⟨hp, hnd2⟩ := hnd
    by_cases hpk : (p.1 == k) = true
    · have hpk' : p.1 = k := by simpa using hpk
      by_cases htv : p.2.truthy = true
      · simp [get_tags_cons, tags_get_cons, hpk', hk, htv]
      · have htv2 : p.2.truthy = false := by simpa using htv
        have hknotin : k ∉ rest.map Prod.fst := by
          rw [← hpk']
          exact hp
        have hsub : (get_tags rest).map Prod.fst ⊆ rest.map Prod.fst :=
          List.Sublist.subset (List.Sublist.map Prod.fst (List.filter_sublist rest))
        have hnone : tags_get (get_tags rest) k = Option.none :=
          tags_get_eq_none_of_not_mem (get_tags rest) k (fun hm => hknotin (hsub hm))
        have hkmem : k ∈ reserved_tags := by simpa using hk
        simp [get_tags_cons, tags_get_cons, hpk', hk, hkmem, htv2, hnone]
        rfl
    · have hb : (p.1 == k) = false := by simpa using hpk
      by_cases hkeep : (!(reserved_tags.contains p.1) || p.2.truthy) = true
      · simp only [get_tags_cons, hkeep, if_true, tags_get_cons, hb, if_false]
        simpa using ih hnd2
      · have hkeep2 : (!(reserved_tags.contains p.1) || p.2.truthy) = false := by
          simpa using hkeep
        simp only [get_tags_cons, hkeep2, tags_get_cons, hb, if_false]
        simpa using ih hnd2

/-- C10: over any raw tags dict (unique keys), the nofailover and
noloadbalance flags computed from the filtered tags coincide with the
truthiness of the corresponding raw entries (absent entries default to
False): the filtering never changes these derived values. -/
theorem derived_flags_unchanged_by_filter (raw : Tags)
    (hnd : (raw.map Prod.fst).Nodup) :
    nofailover (get_tags raw)
        = ((tags_get raw "nofailover").getD (PyVal.bool false)).truthy ∧
    noloadbalance (get_tags raw)
        = ((tags_get raw "noloadbalance").getD (PyVal.bool false)).truthy :=
  ⟨filtered_reserved_get_truthy raw "nofailover" (by decide) hnd,
   filtered_reserved_get_truthy raw "noloadbalance" (by decide) hnd⟩

/-- C10 witness: a concrete dict with a falsy nofailover entry (dropped by
the filter) and an unreserved entry. -/
theorem derived_flags_unchanged_by_filter_witness :
    nofailover (get_tags [("nofailover", PyVal.bool false), ("custom", PyVal.str "x")])
        = ((tags_get [("nofailover", PyVal.bool false), ("custom", PyVal.str "x")]
            "nofailover").getD (PyVal.bool false)).truthy ∧
    noloadbalance (get_tags [("nofailover", PyVal.bool false), ("custom", PyVal.str "x")])
        = ((tags_get [("nofailover", PyVal.bool false), ("custom", PyVal.str "x")]
            "noloadbalance").getD (PyVal.bool false)).truthy :=
  derived_flags_unchanged_by_filter
    [("nofailover", PyVal.bool false), ("custom", PyVal.str "x")] (by decide)

end Patroni
